import Mathlib

/-!
Shallow embedding of the QA smoke-test harness
(`scripts/qa-smoke-test.py` and the fixture auth router
`src/fixture/routers/auth.py`).

Modelling conventions:
* JSON values are the inductive `Json` below; Python dicts are association
  lists in insertion order (`json.loads` produces dicts with unique keys,
  and every dict built by the script has unique keys, so first-match lookup
  agrees with Python).
* Network and filesystem effects are inputs: each `urllib` call site is fed
  a `UrlOutcome` describing what `urlopen` did there (success with a raw
  body, `HTTPError`, `URLError`, or another exception).  Raw response
  bodies either decode to a JSON object (`RawBody.json`) or make
  `json.loads` raise (`RawBody.invalid`); every endpoint in this system
  serves JSON objects, so decodable bodies are modelled as objects.
* Exception messages, `str()` renderings and log lines to stderr are
  carried as plain strings where their content does not matter.
-/

/-- JSON values (the payloads `json.loads` / `json.dumps` handle). -/
inductive Json where
  | null : Json
  | bool (b : Bool) : Json
  | num (n : Int) : Json
  | str (s : String) : Json
  | arr (xs : List Json) : Json
  | obj (kvs : List (String × Json)) : Json

namespace Json

/-- `d.get(k)` on a Python dict: `some v` when the key is present.
On a non-dict Python would raise `AttributeError`; the call sites modelled
here only apply it to dicts, and we return `none` for uniformity. -/
def get : Json → String → Option Json
  | .obj kvs, k => kvs.lookup k
  | _, _ => none

/-- `d.get(k, default)` on a Python dict. -/
def getD (j : Json) (k : String) (default : Json) : Json :=
  (j.get k).getD default

/-- `k in d` on a Python dict. -/
def hasKey (j : Json) (k : String) : Bool :=
  (j.get k).isSome

/-- `list(d.keys())` on a Python dict. -/
def keys : Json → List String
  | .obj kvs => kvs.map Prod.fst
  | _ => []

/-- Python truthiness (`bool(x)`) for JSON-representable values. -/
def truthy : Json → Bool
  | .null => false
  | .bool b => b
  | .num n => n != 0
  | .str s => s ≠ ""
  | .arr xs => !xs.isEmpty
  | .obj kvs => !kvs.isEmpty

end Json

/-- `d[k] = v` on a Python dict: replace in place, else append at the end. -/
def setKey : List (String × Json) → String → Json → List (String × Json)
  | [], k, v => [(k, v)]
  | (k0, v0) :: rest, k, v =>
      if k0 = k then (k, v) :: rest else (k0, v0) :: setKey rest k v

/-- A raw HTTP response body: either it decodes to a JSON object, or
`json.loads` raises (carrying the message of the exception). -/
inductive RawBody where
  | json (kvs : List (String × Json)) : RawBody
  | invalid (msg : String) : RawBody

/-- What a single `urllib.request.urlopen` call did, as seen at its call
site: a success response (status and raw body), an `HTTPError` (code, raw
error body, `reason` text), a `URLError` (transport failure: DNS,
connection refused, ...), or some other exception (e.g. a socket
timeout). -/
inductive UrlOutcome where
  | ok (status : Nat) (body : RawBody) : UrlOutcome
  | httpError (code : Nat) (body : RawBody) (reason : String) : UrlOutcome
  | urlError (reason : String) : UrlOutcome
  | otherExc (msg : String) : UrlOutcome

/-- The outcome is a transport-level failure of the request itself
(DNS, connection refused, timeout, ...): `urlopen` raised something that
is not an `HTTPError`. -/
def UrlOutcome.isTransportFailure : UrlOutcome → Bool
  | .urlError _ => true
  | .otherExc _ => true
  | _ => false

/-- The outcome carries realistic HTTP status codes (an HTTP response
line never carries code 0; `urllib` statuses are at least 100). -/
def UrlOutcome.validStatus : UrlOutcome → Bool
  | .ok s _ => 100 ≤ s
  | .httpError c _ _ => 100 ≤ c
  | _ => true

/-- `http_post(url, data, timeout)` from `scripts/qa-smoke-test.py`:
POST JSON, return `(status_code, parsed_body)`; status 0 means the call
raised outside the `HTTPError` case.  On `HTTPError`, the error body is
decoded, falling back to a dict wrapping the raw reason text; a
`URLError` and any other exception (including `json.loads` failing on
the success body) yield `(0, ⟨error, message⟩)`. -/
def http_post : UrlOutcome → Nat × Json
  | .ok s (.json kvs) => (s, .obj kvs)
  | .ok _ (.invalid msg) => (0, .obj [("error", .str msg)])
  | .httpError c (.json kvs) _ => (c, .obj kvs)
  | .httpError c (.invalid _) reason => (c, .obj [("raw", .str reason)])
  | .urlError reason => (0, .obj [("error", .str reason)])
  | .otherExc msg => (0, .obj [("error", .str msg)])

/-- `http_get(url, headers, timeout)` from `scripts/qa-smoke-test.py`.
Its `except` ladder differs from `http_post` only in that `URLError`
falls into the generic `except Exception` branch; the returned pair is
computed the same way. -/
def http_get : UrlOutcome → Nat × Json
  | .ok s (.json kvs) => (s, .obj kvs)
  | .ok _ (.invalid msg) => (0, .obj [("error", .str msg)])
  | .httpError c (.json kvs) _ => (c, .obj kvs)
  | .httpError c (.invalid _) reason => (c, .obj [("raw", .str reason)])
  | .urlError reason => (0, .obj [("error", .str reason)])
  | .otherExc msg => (0, .obj [("error", .str msg)])

/-! ### Auth flow (`run_auth_test`) -/

/-- Python list repr of a list of strings, as an f-string renders
`list(body.keys())`: `[` then the quoted keys joined by `, ` then `]`. -/
def pyListRepr (xs : List String) : String :=
  "[" ++ String.intercalate ", " (xs.map fun s => "\u0027" ++ s ++ "\u0027") ++ "]"

/-- The environment of one `run_auth_test` run: what each of its three
HTTP calls (register, login, verify-token) would do. -/
structure AuthEnv where
  regOutcome : UrlOutcome
  loginOutcome : UrlOutcome
  verifyOutcome : UrlOutcome

/-- The `result` dict built by `run_auth_test`: `success`, `email`,
`password` and `steps` are created up front; `token_verified` and
`error` are only added on the corresponding paths (modelled as
`Option`). `steps` maps step names to the per-step dicts the script
builds. -/
structure AuthOutcome where
  success : Bool
  email : String
  password : String
  steps : List (String × Json)
  token_verified : Option Bool
  error : Option String

/-- Python `a or b` on JSON-representable values: `a` when truthy,
otherwise `b`. -/
def pyOr (a b : Json) : Json := if a.truthy then a else b

/-- The token-extraction expression of `run_auth_test`:
`body.get("token") or body.get("access_token") or body.get("idToken")
or body.get("id_token")` (a missing key gives Python `None`, i.e.
`Json.null`). -/
def tokenOf (body : Json) : Json :=
  pyOr (body.getD "token" .null)
    (pyOr (body.getD "access_token" .null)
      (pyOr (body.getD "idToken" .null) (body.getD "id_token" .null)))

/-- `run_auth_test()` from `scripts/qa-smoke-test.py`.  The generated
`email`/`password` pair is passed in (the script derives the email from
the clock); the behaviour of each HTTP call comes from `env`.  Credential
persistence on success is a side effect outside the report and is not
modelled. -/
def run_auth_test (email password : String) (env : AuthEnv) : AuthOutcome :=
  let r1 := http_post env.regOutcome
  let steps1 := [("register", Json.obj [("status", .num r1.1), ("response", r1.2)])]
  if r1.1 < 200 ∨ 300 ≤ r1.1 then
    { success := false, email := email, password := password, steps := steps1,
      token_verified := none,
      error := some ("Registration failed (HTTP " ++ toString r1.1 ++ ")") }
  else
    let r2 := http_post env.loginOutcome
    let steps2 := steps1 ++ [("login", Json.obj [("status", .num r2.1)])]
    if r2.1 < 200 ∨ 300 ≤ r2.1 then
      { success := false, email := email, password := password, steps := steps2,
        token_verified := none,
        error := some ("Login failed (HTTP " ++ toString r2.1 ++ ")") }
    else
      let token := tokenOf r2.2
      if token.truthy = false then
        { success := false, email := email, password := password, steps := steps2,
          token_verified := none,
          error := some ("Login response has no token field. Keys: "
                          ++ pyListRepr r2.2.keys) }
      else
        let r3 := http_get env.verifyOutcome
        let steps3 := steps2 ++ [("verify_token", Json.obj [("status", .num r3.1)])]
        { success := true, email := email, password := password, steps := steps3,
          token_verified := some (decide (200 ≤ r3.1 ∧ r3.1 < 300)),
          error := none }

/-! ### Fixture register endpoint (`src/fixture/routers/auth.py`) -/

/-- The `register` handler of the fixture, at the level the claim needs:
the database is the list of registered emails; registering an existing
email raises HTTP 409 and leaves the database unchanged, otherwise the
user is created and FastAPI returns the default 200.  Returns
`(status, new database)`. -/
def fixtureRegister (db : List String) (email : String) : Nat × List String :=
  if email ∈ db then (409, db) else (200, db ++ [email])

/-! ### Port publication (`make_ports_public`) -/

/-- What the `gh codespace ports visibility` subprocess invocation did. -/
inductive GhOutcome where
  | ok : GhOutcome
  | procError (stderr : String) : GhOutcome
  | notFound : GhOutcome
  | timedOut : GhOutcome

/-- The dict returned by `make_ports_public`: success with the login URL,
or failure with an error message. -/
inductive PortsResult where
  | ok (frontend_url : String) : PortsResult
  | err (error : String) : PortsResult

/-- `PortsResult.success` — the `success` field of the dict. -/
def PortsResult.success : PortsResult → Bool
  | .ok _ => true
  | .err _ => false

/-- `make_ports_public()` from `scripts/qa-smoke-test.py`: requires
`CODESPACE_NAME`, runs the `gh` CLI (outcome supplied by the
environment), and on success derives the public frontend URL with the
`/login` sub-path appended.  `FRONTEND_PORT` is the constant 3000. -/
def make_ports_public (codespace : Option String) (gh : GhOutcome) : PortsResult :=
  match codespace with
  | none => .err "CODESPACE_NAME env var not set -- not in a codespace?"
  | some cs =>
    match gh with
    | .procError stderr => .err ("gh ports failed: " ++ stderr)
    | .notFound => .err "gh CLI not found"
    | .timedOut => .err "gh ports timed out"
    | .ok => .ok ("https://" ++ cs ++ "-3000.app.github.dev" ++ "/login")

/-! ### Feature loader (`read_features`) -/

/-- What opening and decoding `features.json` did: the file is missing
(`FileNotFoundError`), `json.load` raised, or it produced a value. -/
inductive FileOutcome where
  | missing : FileOutcome
  | decodeError (msg : String) : FileOutcome
  | content (data : Json) : FileOutcome

/-- A feature entry is selected by `read_features` when its `status` field
is the string `"completed"` or `"done"`. -/
def featureSelected (f : Json) : Bool :=
  match f.get "status" with
  | some (.str s) => s = "completed" || s = "done"
  | _ => false

/-- The list comprehension of `read_features`: walk the features in file
order; a feature is selected when its `status` field equals
`"completed"` or `"done"`.  Any Python-level error while evaluating the
comprehension (a feature that is not a dict, so `feat.get` raises; a
selected feature without a `"name"` key, so `feat["name"]` raises)
aborts the whole comprehension — modelled as `none`. -/
def collectNames : List Json → Option (List Json)
  | [] => some []
  | f :: rest =>
    match f with
    | .obj kvs =>
      if featureSelected (.obj kvs) then
        match (Json.obj kvs).get "name" with
        | some n => (collectNames rest).map (n :: ·)
        | none => none
      else collectNames rest
    | _ => none

/-- `read_features()` from `scripts/qa-smoke-test.py`: missing file and
any exception (decode error, non-dict data so `data.get` raises,
non-list `features` value so iteration misbehaves or raises, or the
comprehension raising) all yield `[]`.  Iterating a non-list value
either raises or yields non-dict items making `feat.get` raise, except
when it yields nothing at all — in every case the result is `[]`. -/
def read_features (file : FileOutcome) : List Json :=
  match file with
  | .missing => []
  | .decodeError _ => []
  | .content data =>
    match data with
    | .obj _ =>
      match data.getD "features" (.arr []) with
      | .arr feats => (collectNames feats).getD []
      | _ => []
    | _ => []

/-! ### Browser-agent invoker (`call_browser_agent`) -/

/-- `str(x)` as an f-string renders a JSON-representable value.  Only the
scalar cases matter for the messages the script builds; container values
never reach an f-string on the modelled paths. -/
def pyStr : Json → String
  | .null => "None"
  | .bool b => cond b "True" "False"
  | .num n => toString n
  | .str s => s
  | .arr _ => "<list>"
  | .obj _ => "<dict>"

/-- Whether `t.get("notes", "")[:80]` evaluates without raising: the
default empty string is used only when the key is absent; a present
value must support slicing (a string or a list), while `None`, numbers,
booleans and dicts raise `TypeError`. -/
def notesOk : Json → Bool
  | .str _ => true
  | .arr _ => true
  | _ => false

/-- One entry `t` of the tests logging loop (line 259-261): `t.get`
raises `AttributeError` unless `t` is a dict, and its `notes` value
must be sliceable when present. -/
def testEntryOk : Json → Bool
  | .obj kvs =>
    (match (Json.obj kvs).get "notes" with
     | none => true
     | some v => notesOk v)
  | _ => false

/-- A truthy `tests` value survives `for t in smoke["tests"]` with the
per-entry accesses: it must be a list of well-shaped entries.  Numbers
and booleans are not iterable (`TypeError`); iterating a non-empty
string or dict yields strings, whose `.get` raises
`AttributeError`. -/
def testsLoopOk : Json → Bool
  | .arr xs => xs.all testEntryOk
  | _ => false

/-- A truthy `critical_issues` value survives
`for issue in smoke["critical_issues"]`: strings, lists and dicts
iterate, and the f-string renders any element; numbers and booleans are
not iterable. -/
def issuesLoopOk : Json → Bool
  | .num _ => false
  | .bool _ => false
  | _ => true

/-- The merged result object of the 2xx path (lines 250-254): the inner
object with `service_reachable` force-set and the top-level screenshot
list merged in when the inner object lacks one. -/
def mergedSmoke (body : Json) (innerKvs : List (String × Json)) : Json :=
  let smoke := Json.obj (setKey innerKvs "service_reachable" (.bool true))
  if body.hasKey "screenshotUrls" && !smoke.hasKey "screenshotUrls" then
    Json.obj (setKey (setKey innerKvs "service_reachable" (.bool true))
              "screenshotUrls" (body.getD "screenshotUrls" .null))
  else smoke

/-- The tail of the 2xx path: run the result-logging loops (lines
255-265) over the merged object and, when neither raises, return it.
`none` models an uncaught exception. -/
def invokeResult (body : Json) (innerKvs : List (String × Json)) : Option Json :=
  let smoke := mergedSmoke body innerKvs
  let tv := smoke.getD "tests" .null
  if tv.truthy && !testsLoopOk tv then none
  else
    let cv := smoke.getD "critical_issues" .null
    if cv.truthy && !issuesLoopOk cv then none
    else some smoke

/-- `call_browser_agent(frontend_url, email, password, features)` from
`scripts/qa-smoke-test.py`, as a function of what its single POST to
`/smoke-test` did.  The request payload (target URL, credentials,
features, `maxIterations`, `timeout`, `uploadScreenshots`) does not
affect the response normalization being verified and is not modelled.
Returns `none` where Python raises uncaught: a 2xx body whose
`smokeTestResults` value is not a dict (so `smoke["service_reachable"]
= True` raises `TypeError`), and a merged result object whose truthy
`tests` or `critical_issues` value makes the logging loops at lines
258-265 raise (`testsLoopOk` / `issuesLoopOk`).  The loops run after
the merge and in source order: a crashing tests loop prevents the
`critical_issues` check. -/
def call_browser_agent (o : UrlOutcome) : Option Json :=
  let r := http_post o
  let status := r.1
  let body := r.2
  if status = 0 then
    some (.obj [("overall", .str "skipped"),
                ("reason", .str ("Browser agent unreachable: "
                                  ++ pyStr (body.getD "error" .null))),
                ("service_reachable", .bool false)])
  else if status < 200 ∨ 300 ≤ status then
    some (.obj [("overall", .str "error"),
                ("error", .str ("Browser agent returned HTTP " ++ toString status)),
                ("detail", body),
                ("service_reachable", .bool true)])
  else
    match body.getD "smokeTestResults" body with
    | .obj innerKvs => invokeResult body innerKvs
    | _ => none

/-! ### Connectivity probe (step 0 of `main`) -/

/-- `WAKE_RETRIES` from `main`. -/
def WAKE_RETRIES : Nat := 4

/-- `WAKE_DELAYS` from `main` (seconds slept between failed attempts). -/
def WAKE_DELAYS : List Nat := [10, 15, 15, 15]

/-- One pass of the step-0 wake-up loop, with `remaining` attempts left
(the current one included) and `attempt` the current 0-based index.
Each attempt GETs the agent root (outcome from `env`); a positive
status breaks out reachable; otherwise, unless this was the final
attempt, the loop sleeps `WAKE_DELAYS[attempt]` and retries.  Returns
(reachable, list of sleeps performed). -/
def probeAux (env : Nat → UrlOutcome) : Nat → Nat → Bool × List Nat
  | _, 0 => (false, [])
  | attempt, remaining + 1 =>
    if 0 < (http_get (env attempt)).1 then (true, [])
    else if remaining = 0 then (false, [])
    else
      let rest := probeAux env (attempt + 1) remaining
      (rest.1, WAKE_DELAYS.getD attempt 0 :: rest.2)

/-- The whole step-0 connectivity probe: `WAKE_RETRIES` attempts starting
at index 0. -/
def browserProbe (env : Nat → UrlOutcome) : Bool × List Nat :=
  probeAux env 0 WAKE_RETRIES

/-! ### Orchestrator (`main`) -/

/-- Everything `main` observes from the outside world, one field per
effectful call site. -/
structure MainEnv where
  now : String
  email : String
  password : String
  probeEnv : Nat → UrlOutcome
  authEnv : AuthEnv
  frontendPresent : Bool
  codespace : Option String
  gh : GhOutcome
  featuresFile : FileOutcome
  agentOutcome : UrlOutcome

/-- The `output` dict `main` assembles: `timestamp`, `auth`,
`browser_smoke_test` (starting out as `None`) and, just before writing,
`exit_code`. -/
structure RunOutput where
  timestamp : String
  auth : AuthOutcome
  browser_smoke_test : Option Json
  exit_code : Nat

/-- The observable outcome of one `main` run.  An exception escaping
`main` aborts the process with a traceback (the interpreter exits 1):
`crashedBeforeWrite` when it was raised inside `call_browser_agent`,
before the results file is written; `wroteThenCrashed` when the file
write succeeded but the run died in the summary logging before the
stdout print; `completed` carries the report written to the results
file, the report printed to stdout, and the returned exit code. -/
inductive MainOutcome where
  | crashedBeforeWrite : MainOutcome
  | wroteThenCrashed (fileWritten : RunOutput) : MainOutcome
  | completed (fileWritten : RunOutput) (stdoutput : RunOutput) (exitCode : Nat) : MainOutcome

/-- The tail of `main` (lines 372-387): set `output["exit_code"]`, dump
`output` to the results file, then build the summary log line — which
evaluates `output["browser_smoke_test"].get("overall", "unknown")` and
calls `.upper()` on it, raising `AttributeError` when the browser stage
is still `None` or not a dict, or when its `overall` value is not a
string, killing the run after the file write and before the stdout
print — and finally print the same `output` JSON to stdout and return
the exit code. -/
def finishMain (timestamp : String) (auth : AuthOutcome)
    (browser : Option Json) (exitCode : Nat) : MainOutcome :=
  let output : RunOutput :=
    { timestamp := timestamp, auth := auth,
      browser_smoke_test := browser, exit_code := exitCode }
  match browser with
  | some (.obj kvs) =>
    (match (Json.obj kvs).getD "overall" (.str "unknown") with
     | .str _ => .completed output output exitCode
     | _ => .wroteThenCrashed output)
  | _ => .wroteThenCrashed output

/-- `main()` from `scripts/qa-smoke-test.py` as a function of its
environment.  Stderr logging is not modelled (except where it
crashes, see `finishMain`). -/
def mainRun (env : MainEnv) : MainOutcome :=
  let timestamp := env.now
  -- Step 0: browser agent pre-check with retries.
  let browser_reachable := (browserProbe env.probeEnv).1
  let preBrowser : Option Json :=
    if browser_reachable then none
    else some (.obj [("overall", .str "error"),
                     ("reason", .str ("Browser agent unreachable after "
                                       ++ toString WAKE_RETRIES ++ " attempts"))])
  let skip_browser := !browser_reachable
  -- Step 1: auth flow.
  let auth := run_auth_test env.email env.password env.authEnv
  if auth.success = false then
    finishMain timestamp auth
      (some (.obj [("overall", .str "error"),
                   ("error", .str ("Auth failed: "
                     ++ (match auth.error with | some e => e | none => "None")
                     ++ " -- no valid credentials for browser test"))]))
      1
  else if env.frontendPresent = false then
    finishMain timestamp auth (some (.obj [("overall", .str "not_applicable")])) 0
  else
    match make_ports_public env.codespace env.gh with
    | .err msg =>
      finishMain timestamp auth
        (some (.obj [("overall", .str "error"), ("error", .str msg)])) 2
    | .ok frontend_url =>
      -- Step 3: read features (result only feeds the agent request).
      let _features := read_features env.featuresFile
      let _url := frontend_url
      if skip_browser then
        -- Step 4 skipped; `exit_code` was never reassigned and is still 0,
        -- and `output["browser_smoke_test"]` still holds the step-0 dict.
        finishMain timestamp auth preBrowser 0
      else
        match call_browser_agent env.agentOutcome with
        | none => .crashedBeforeWrite
        | some smoke =>
          let overall := smoke.getD "overall" (.str "unknown")
          let exitCode : Nat :=
            match overall with
            | .str s => if s = "pass" then 0 else if s = "skipped" then 2 else 1
            | _ => 1
          finishMain timestamp auth (some smoke) exitCode

/-- The result object is shaped so that the result-logging loops of the
invoker complete: `tests`, when truthy, is a list of dicts whose
`notes` values (when present) are sliceable; `critical_issues`, when
truthy, is iterable. -/
def smokeShapeOk (kvs : List (String × Json)) : Bool :=
  (!((Json.obj kvs).getD "tests" .null).truthy
    || testsLoopOk ((Json.obj kvs).getD "tests" .null))
  && (!((Json.obj kvs).getD "critical_issues" .null).truthy
    || issuesLoopOk ((Json.obj kvs).getD "critical_issues" .null))

/-- The `overall` value of the result object, when present, is a string,
so the `.upper()` of the summary log line succeeds. -/
def overallOk (kvs : List (String × Json)) : Bool :=
  match (Json.obj kvs).get "overall" with
  | some (.str _) => true
  | some _ => false
  | none => true

/-- The documented response contract of the browser agent, at the points
the invoker and the orchestrator rely on it: when the POST succeeds
with a 2xx status, the value under `smokeTestResults` (or the whole
body when that wrapper is absent) is an object whose `tests`,
`critical_issues` and `overall` fields are shaped as documented.
Outside this contract, `call_browser_agent` or the summary logging
raises uncaught. -/
def agentReportWF (o : UrlOutcome) : Bool :=
  let r := http_post o
  if 200 ≤ r.1 ∧ r.1 < 300 then
    match r.2.get "smokeTestResults" with
    | some (.obj innerKvs) => smokeShapeOk innerKvs && overallOk innerKvs
    | some _ => false
    | none =>
      match r.2 with
      | .obj kvs => smokeShapeOk kvs && overallOk kvs
      | _ => false
  else true

/-! ### Shared helper definitions and lemmas -/

/-- The body `http_post`/`http_get` return for an `HTTPError`: the decoded
error body, or a dict wrapping the reason text when decoding fails. -/
def errorBody : RawBody → String → Json
  | .json kvs, _ => .obj kvs
  | .invalid _, reason => .obj [("raw", .str reason)]

theorem lookup_setKey_self (kvs : List (String × Json)) (k : String) (v : Json) :
    (Json.obj (setKey kvs k v)).get k = some v := by
  induction kvs with
  | nil => simp [setKey, Json.get, List.lookup]
  | cons hd tl ih =>
    obtain ⟨k0, v0⟩ := hd
    by_cases h : k0 = k
    · simp [setKey, h, Json.get, List.lookup]
    · have hb : (k == k0) = false := beq_eq_false_iff_ne.mpr (Ne.symm h)
      simp only [setKey, if_neg h, Json.get, List.lookup, hb]
      simpa [Json.get] using ih

theorem lookup_setKey_other (kvs : List (String × Json)) (k : String) (v : Json)
    (k' : String) (h : k' ≠ k) :
    (Json.obj (setKey kvs k v)).get k' = (Json.obj kvs).get k' := by
  induction kvs with
  | nil =>
    have hb : (k' == k) = false := beq_eq_false_iff_ne.mpr h
    simp [setKey, Json.get, List.lookup, hb]
  | cons hd tl ih =>
    obtain ⟨k0, v0⟩ := hd
    by_cases h0 : k0 = k
    · subst h0
      have hb : (k' == k0) = false := beq_eq_false_iff_ne.mpr h
      simp [setKey, Json.get, List.lookup, hb]
    · simp only [setKey, if_neg h0, Json.get, List.lookup]
      by_cases h1 : k' = k0
      · have hb : (k' == k0) = true := beq_iff_eq.mpr h1
        simp [hb]
      · have hb : (k' == k0) = false := beq_eq_false_iff_ne.mpr h1
        simp only [hb]
        simpa [Json.get] using ih

theorem http_post_eq_http_get (o : UrlOutcome) : http_post o = http_get o := by
  cases o with
  | ok s b => cases b <;> rfl
  | httpError c b r => cases b <;> rfl
  | urlError r => rfl
  | otherExc m => rfl

/-! ### Claim C2 -/

/-- Claim C2, counterexample: a successful HTTP 200 response whose body is
not valid JSON makes `json.loads` raise inside the `try` block; the
generic `except Exception` handler then returns status 0 even though no
transport-level failure occurred, refuting the claimed equivalence. -/
theorem C2_counterexample_status_zero_without_transport :
    (http_post (.ok 200 (.invalid "Expecting value: line 1 column 1 (char 0)"))).1 = 0
    ∧ (UrlOutcome.ok 200 (.invalid "Expecting value: line 1 column 1 (char 0)")).isTransportFailure
        = false
    ∧ (UrlOutcome.ok 200 (.invalid "Expecting value: line 1 column 1 (char 0)")).validStatus
        = true := by
  refine ⟨rfl, rfl, ?_⟩
  decide

/-- Claim C2 (amended): for outcomes with realistic HTTP status codes,
`http_post` and `http_get` return status 0 exactly when the failure was
transport-level (`urlopen` raised other than `HTTPError`) or when the
body of the success response failed to decode as JSON; an `HTTPError` always
surfaces as its real non-zero code with the decoded error body or the
wrapped raw reason text. -/
theorem C2_amended_status_zero_characterization (o : UrlOutcome)
    (hv : o.validStatus = true) :
    ((http_post o).1 = 0 ↔
        o.isTransportFailure = true ∨ ∃ s m, o = .ok s (.invalid m))
    ∧ ((http_get o).1 = 0 ↔
        o.isTransportFailure = true ∨ ∃ s m, o = .ok s (.invalid m))
    ∧ (∀ c b r, o = .httpError c b r →
        http_post o = (c, errorBody b r) ∧ http_get o = (c, errorBody b r)
        ∧ c ≠ 0) := by
  rw [← http_post_eq_http_get]
  refine ⟨?_, ?_, ?_⟩
  · cases o with
    | ok s b =>
      cases b with
      | json kvs =>
        have hs : 100 ≤ s := by simpa [UrlOutcome.validStatus] using hv
        simp [http_post, UrlOutcome.isTransportFailure]
        omega
      | invalid m => simp [http_post, UrlOutcome.isTransportFailure]
    | httpError c b r =>
      have hc : 100 ≤ c := by simpa [UrlOutcome.validStatus] using hv
      cases b <;> simp [http_post, UrlOutcome.isTransportFailure] <;> omega
    | urlError r => simp [http_post, UrlOutcome.isTransportFailure]
    | otherExc m => simp [http_post, UrlOutcome.isTransportFailure]
  · cases o with
    | ok s b =>
      cases b with
      | json kvs =>
        have hs : 100 ≤ s := by simpa [UrlOutcome.validStatus] using hv
        simp [http_post, UrlOutcome.isTransportFailure]
        omega
      | invalid m => simp [http_post, UrlOutcome.isTransportFailure]
    | httpError c b r =>
      have hc : 100 ≤ c := by simpa [UrlOutcome.validStatus] using hv
      cases b <;> simp [http_post, UrlOutcome.isTransportFailure] <;> omega
    | urlError r => simp [http_post, UrlOutcome.isTransportFailure]
    | otherExc m => simp [http_post, UrlOutcome.isTransportFailure]
  · rintro c b r rfl
    have hc : 100 ≤ c := by simpa [UrlOutcome.validStatus] using hv
    cases b <;> simp [http_post, errorBody] <;> omega

/-- Witness for the amended C2 at a concrete `HTTPError 503` with an
undecodable body: status surfaces as 503, never 0. -/
theorem C2_amended_witness :
    (UrlOutcome.httpError 503 (.invalid "html page") "Service Unavailable").validStatus = true
    ∧ ¬ (http_post (.httpError 503 (.invalid "html page") "Service Unavailable")).1 = 0
    ∧ http_post (.httpError 503 (.invalid "html page") "Service Unavailable")
        = (503, .obj [("raw", .str "Service Unavailable")]) := by
  have h := C2_amended_status_zero_characterization
    (.httpError 503 (.invalid "html page") "Service Unavailable") (by decide)
  refine ⟨by decide, ?_, ?_⟩
  · intro h0
    have := (h.1).mp h0
    rcases this with ht | ⟨s, m, hsm⟩
    · exact absurd ht (by decide)
    · exact UrlOutcome.noConfusion hsm
  · exact ((h.2.2 503 (.invalid "html page") "Service Unavailable" rfl).1)

/-! ### Claim C4 -/

/-- Claim C4: once registration and login returned 2xx and a token was
extracted, `run_auth_test` reports `success = true` whatever the
verify-token call did, and `token_verified` independently records
whether the status of the verify call lies in [200, 300). -/
theorem C4_verify_does_not_gate_success (email password : String) (env : AuthEnv)
    (h1 : 200 ≤ (http_post env.regOutcome).1 ∧ (http_post env.regOutcome).1 < 300)
    (h2 : 200 ≤ (http_post env.loginOutcome).1 ∧ (http_post env.loginOutcome).1 < 300)
    (h3 : (tokenOf (http_post env.loginOutcome).2).truthy = true) :
    (run_auth_test email password env).success = true
    ∧ (run_auth_test email password env).token_verified
        = some (decide (200 ≤ (http_get env.verifyOutcome).1
                        ∧ (http_get env.verifyOutcome).1 < 300)) := by
  have hc1 : ¬((http_post env.regOutcome).1 < 200 ∨ 300 ≤ (http_post env.regOutcome).1) := by
    omega
  have hc2 : ¬((http_post env.loginOutcome).1 < 200 ∨ 300 ≤ (http_post env.loginOutcome).1) := by
    omega
  have hc3 : ¬((tokenOf (http_post env.loginOutcome).2).truthy = false) := by
    simp [h3]
  simp only [run_auth_test, if_neg hc1, if_neg hc2, if_neg hc3]
  exact ⟨trivial, trivial⟩

/-- Witness for C4 at a concrete environment where the verify call fails
with HTTP 500: success is still true and `token_verified` is `false`. -/
theorem C4_witness :
    (run_auth_test "qa@test.example.com" "pw"
      { regOutcome := .ok 200 (.json [])
      , loginOutcome := .ok 200 (.json [("token", .str "tok")])
      , verifyOutcome := .httpError 500 (.json []) "Internal Server Error" }).success = true
    ∧ (run_auth_test "qa@test.example.com" "pw"
      { regOutcome := .ok 200 (.json [])
      , loginOutcome := .ok 200 (.json [("token", .str "tok")])
      , verifyOutcome := .httpError 500 (.json []) "Internal Server Error" }).token_verified
        = some false := by
  have h := C4_verify_does_not_gate_success "qa@test.example.com" "pw"
    { regOutcome := .ok 200 (.json [])
    , loginOutcome := .ok 200 (.json [("token", .str "tok")])
    , verifyOutcome := .httpError 500 (.json []) "Internal Server Error" }
    (by constructor <;> decide) (by constructor <;> decide) (by decide)
  refine ⟨h.1, ?_⟩
  rw [h.2]
  decide

/-! ### Claim C5 -/

/-- Claim C5: token extraction probes `token`, `access_token`, `idToken`,
`id_token` in that order, first truthy (non-empty) match winning; in
particular a truthy `token` field always wins. When all four are absent
or falsy, the extracted value is falsy and — under 2xx registration and
login — `run_auth_test` fails with an error naming the observed key
set. -/
theorem C5_token_priority (body : Json) :
    (∀ v, body.get "token" = some v → v.truthy = true → tokenOf body = v)
    ∧ ((∀ v, body.get "token" = some v → v.truthy = false) →
        ∀ v, body.get "access_token" = some v → v.truthy = true → tokenOf body = v)
    ∧ ((∀ v, body.get "token" = some v → v.truthy = false) →
        (∀ v, body.get "access_token" = some v → v.truthy = false) →
        ∀ v, body.get "idToken" = some v → v.truthy = true → tokenOf body = v)
    ∧ ((∀ v, body.get "token" = some v → v.truthy = false) →
        (∀ v, body.get "access_token" = some v → v.truthy = false) →
        (∀ v, body.get "idToken" = some v → v.truthy = false) →
        ∀ v, body.get "id_token" = some v → v.truthy = true → tokenOf body = v)
    ∧ ((∀ v, body.get "token" = some v → v.truthy = false) →
        (∀ v, body.get "access_token" = some v → v.truthy = false) →
        (∀ v, body.get "idToken" = some v → v.truthy = false) →
        (∀ v, body.get "id_token" = some v → v.truthy = false) →
        (tokenOf body).truthy = false
        ∧ ∀ email password env,
            200 ≤ (http_post env.regOutcome).1 → (http_post env.regOutcome).1 < 300 →
            200 ≤ (http_post env.loginOutcome).1 → (http_post env.loginOutcome).1 < 300 →
            (http_post env.loginOutcome).2 = body →
            (run_auth_test email password env).success = false
            ∧ (run_auth_test email password env).error
                = some ("Login response has no token field. Keys: "
                         ++ pyListRepr body.keys)) := by
  have falsyD : ∀ k : String, (∀ v, body.get k = some v → v.truthy = false) →
      (body.getD k .null).truthy = false := by
    intro k hk
    unfold Json.getD
    cases h : body.get k with
    | none => simp [Json.truthy]
    | some v => simpa using hk v h
  have truthyD : ∀ (k : String) (v : Json), body.get k = some v →
      body.getD k .null = v := by
    intro k v hk
    simp [Json.getD, hk]
  refine ⟨?_, ?_, ?_, ?_, ?_⟩
  · intro v hv ht
    simp [tokenOf, pyOr, truthyD _ _ hv, ht]
  · intro h1 v hv ht
    simp [tokenOf, pyOr, truthyD _ _ hv, ht, falsyD _ h1]
  · intro h1 h2 v hv ht
    simp [tokenOf, pyOr, truthyD _ _ hv, ht, falsyD _ h1, falsyD _ h2]
  · intro h1 h2 h3 v hv ht
    simp [tokenOf, pyOr, truthyD _ _ hv, ht, falsyD _ h1, falsyD _ h2, falsyD _ h3]
  · intro h1 h2 h3 h4
    have hfal : (tokenOf body).truthy = false := by
      simp [tokenOf, pyOr, falsyD _ h1, falsyD _ h2, falsyD _ h3, falsyD _ h4]
    refine ⟨hfal, ?_⟩
    intro email password env hr1 hr2 hl1 hl2 hbody
    have hc1 : ¬((http_post env.regOutcome).1 < 200 ∨ 300 ≤ (http_post env.regOutcome).1) := by
      omega
    have hc2 : ¬((http_post env.loginOutcome).1 < 200 ∨ 300 ≤ (http_post env.loginOutcome).1) := by
      omega
    simp only [run_auth_test, if_neg hc1, if_neg hc2, hbody, hfal, if_pos]
    exact ⟨trivial, trivial⟩

/-- Witness for C5 at the instance named in the claim: a login body carrying both
`token` and `access_token` yields the value of the `token` field. -/
theorem C5_witness :
    tokenOf (.obj [("access_token", .str "second"), ("token", .str "first")])
      = .str "first" := by
  exact (C5_token_priority
      (.obj [("access_token", .str "second"), ("token", .str "first")])).1
    (.str "first") rfl rfl

/-! ### Claim C6 -/

/-- Claim C6: a registration status outside [200, 300) makes the auth flow
fail immediately — `success = false`, an error message set, and no login
or verify step ever recorded — and the fixture answers any second
registration of an already-stored email (in particular a repeated
registration) with HTTP 409, which lies outside [200, 300). -/
theorem C6_registration_failure_short_circuits :
    (∀ (email password : String) (env : AuthEnv),
      ((http_post env.regOutcome).1 < 200 ∨ 300 ≤ (http_post env.regOutcome).1) →
      (run_auth_test email password env).success = false
      ∧ (run_auth_test email password env).error
          = some ("Registration failed (HTTP " ++ toString (http_post env.regOutcome).1 ++ ")")
      ∧ ((run_auth_test email password env).steps.lookup "login") = none
      ∧ ((run_auth_test email password env).steps.lookup "verify_token") = none)
    ∧ (∀ (db : List String) (email : String),
        (fixtureRegister (fixtureRegister db email).2 email).1 = 409
        ∧ (409 < 200 ∨ 300 ≤ 409)) := by
  constructor
  · intro email password env h
    simp only [run_auth_test, if_pos h]
    refine ⟨trivial, trivial, ?_, ?_⟩ <;> rfl
  · intro db email
    refine ⟨?_, by omega⟩
    by_cases h : email ∈ db
    · simp [fixtureRegister, h]
    · simp [fixtureRegister, h]

/-- Witness for C6: registering the same email twice against an empty
fixture database gives 200 then 409, and an auth run whose register call
came back 409 fails without a login step. -/
theorem C6_witness :
    (fixtureRegister (fixtureRegister [] "qa@test.example.com").2 "qa@test.example.com").1 = 409
    ∧ (run_auth_test "qa@test.example.com" "pw"
        { regOutcome := .httpError 409 (.json [("detail", .str "Email already registered")]) "Conflict"
        , loginOutcome := .ok 200 (.json [])
        , verifyOutcome := .ok 200 (.json []) }).success = false
    ∧ ((run_auth_test "qa@test.example.com" "pw"
        { regOutcome := .httpError 409 (.json [("detail", .str "Email already registered")]) "Conflict"
        , loginOutcome := .ok 200 (.json [])
        , verifyOutcome := .ok 200 (.json []) }).steps.lookup "login") = none := by
  have h := C6_registration_failure_short_circuits
  have h1 := h.2 [] "qa@test.example.com"
  have h2 := h.1 "qa@test.example.com" "pw"
    { regOutcome := .httpError 409 (.json [("detail", .str "Email already registered")]) "Conflict"
    , loginOutcome := .ok 200 (.json [])
    , verifyOutcome := .ok 200 (.json []) }
    (by right; decide)
  exact ⟨h1.1, h2.1, h2.2.2.1⟩

/-! ### Claim C7 -/

/-- Claim C7: the step-0 probe is reachable exactly when some of the four
attempts gets a non-zero status (any HTTP status counts, only the
transport sentinel 0 does not); it stops at the first reachable attempt
having slept only the delays before it, and when all attempts exhaust it
returns false having slept after every attempt but the last. -/
theorem C7_probe_semantics (env : Nat → UrlOutcome) :
    ((browserProbe env).1 = true ↔
        ∃ i, i < WAKE_RETRIES ∧ 0 < (http_get (env i)).1)
    ∧ (∀ k, k < WAKE_RETRIES → (∀ i, i < k → (http_get (env i)).1 = 0) →
        0 < (http_get (env k)).1 →
        browserProbe env = (true, WAKE_DELAYS.take k))
    ∧ ((∀ i, i < WAKE_RETRIES → (http_get (env i)).1 = 0) →
        browserProbe env = (false, WAKE_DELAYS.take (WAKE_RETRIES - 1))) := by
  have hw : WAKE_RETRIES = 4 := rfl
  rw [hw]
  have hfirst : ∀ k, k < 4 → (∀ i, i < k → (http_get (env i)).1 = 0) →
      0 < (http_get (env k)).1 →
      browserProbe env = (true, WAKE_DELAYS.take k) := by
    intro k hk hzero hpos
    interval_cases k
    · simp only [browserProbe, WAKE_RETRIES, probeAux, if_pos hpos]
      rfl
    · have h0 : ¬ 0 < (http_get (env 0)).1 := by
        have := hzero 0 (by omega); omega
      simp only [browserProbe, WAKE_RETRIES, probeAux, if_neg h0, if_pos hpos]
      rfl
    · have h0 : ¬ 0 < (http_get (env 0)).1 := by
        have := hzero 0 (by omega); omega
      have h1 : ¬ 0 < (http_get (env 1)).1 := by
        have := hzero 1 (by omega); omega
      simp only [browserProbe, WAKE_RETRIES, probeAux, if_neg h0, if_neg h1, if_pos hpos]
      rfl
    · have h0 : ¬ 0 < (http_get (env 0)).1 := by
        have := hzero 0 (by omega); omega
      have h1 : ¬ 0 < (http_get (env 1)).1 := by
        have := hzero 1 (by omega); omega
      have h2 : ¬ 0 < (http_get (env 2)).1 := by
        have := hzero 2 (by omega); omega
      simp only [browserProbe, WAKE_RETRIES, probeAux, if_neg h0, if_neg h1, if_neg h2,
        if_pos hpos]
      rfl
  have hnone : (∀ i, i < 4 → (http_get (env i)).1 = 0) →
      browserProbe env = (false, WAKE_DELAYS.take 3) := by
    intro hz
    have h0 : ¬ 0 < (http_get (env 0)).1 := by have := hz 0 (by omega); omega
    have h1 : ¬ 0 < (http_get (env 1)).1 := by have := hz 1 (by omega); omega
    have h2 : ¬ 0 < (http_get (env 2)).1 := by have := hz 2 (by omega); omega
    have h3 : ¬ 0 < (http_get (env 3)).1 := by have := hz 3 (by omega); omega
    simp only [browserProbe, WAKE_RETRIES, probeAux, if_neg h0, if_neg h1, if_neg h2, if_neg h3]
    rfl
  refine ⟨?_, hfirst, hnone⟩
  constructor
  · intro htrue
    by_contra hne
    push_neg at hne
    have hz : ∀ i, i < 4 → (http_get (env i)).1 = 0 := by
      intro i hi
      have := hne i hi
      omega
    have := hnone hz
    rw [this] at htrue
    simp at htrue
  · rintro ⟨i, hi, hpos⟩
    by_cases g0 : 0 < (http_get (env 0)).1
    · rw [hfirst 0 (by omega) (by omega) g0]
    · by_cases g1 : 0 < (http_get (env 1)).1
      · rw [hfirst 1 (by omega) (by intro j hj; interval_cases j; all_goals omega) g1]
      · by_cases g2 : 0 < (http_get (env 2)).1
        · rw [hfirst 2 (by omega) (by intro j hj; interval_cases j; all_goals omega) g2]
        · by_cases g3 : 0 < (http_get (env 3)).1
          · rw [hfirst 3 (by omega) (by intro j hj; interval_cases j; all_goals omega) g3]
          · exfalso
            interval_cases i
            all_goals omega

/-- Witness for C7: with every attempt a transport failure the probe
exhausts all four attempts, returns false, and slept 10, 15, 15 seconds —
never after the final attempt. -/
theorem C7_witness :
    browserProbe (fun _ => .urlError "connection refused") = (false, [10, 15, 15]) := by
  have h := (C7_probe_semantics (fun _ => .urlError "connection refused")).2.2
    (fun i _ => rfl)
  simpa [WAKE_DELAYS, WAKE_RETRIES] using h

/-! ### Claim C9 -/

theorem collectNames_eq (feats : List Json)
    (hobj : ∀ f ∈ feats, ∃ fkvs, f = Json.obj fkvs)
    (hname : ∀ f ∈ feats, featureSelected f = true → (f.get "name").isSome = true) :
    collectNames feats
      = some (feats.filterMap fun f =>
          if featureSelected f then f.get "name" else none) := by
  induction feats with
  | nil => simp [collectNames]
  | cons f rest ih =>
    obtain ⟨fkvs, rfl⟩ := hobj f (by simp)
    have ihr := ih (fun g hg => hobj g (by simp [hg]))
      (fun g hg hs => hname g (by simp [hg]) hs)
    by_cases hsel : featureSelected (Json.obj fkvs) = true
    · have hn := hname (Json.obj fkvs) (by simp) hsel
      obtain ⟨n, hn⟩ := Option.isSome_iff_exists.mp hn
      simp [collectNames, hsel, hn, ihr, List.filterMap_cons]
    · have hsel' : featureSelected (Json.obj fkvs) = false := by
        simpa using hsel
      simp [collectNames, hsel', ihr, List.filterMap_cons]

/-- Claim C9: `read_features` returns, in file order, the names of the
entries whose `status` is `"completed"` or `"done"` (whenever the data is
shaped as the file format prescribes); on the claim instance it returns
exactly `["X"]`, and a missing file or any decode error yields `[]`
without raising. -/
theorem C9_read_features :
    read_features (.content (.obj [("features", .arr [
        .obj [("name", .str "X"), ("status", .str "completed")],
        .obj [("name", .str "Y"), ("status", .str "todo")]])])) = [.str "X"]
    ∧ read_features .missing = []
    ∧ (∀ msg, read_features (.decodeError msg) = [])
    ∧ (∀ (kvs : List (String × Json)) (feats : List Json),
        (Json.obj kvs).get "features" = some (.arr feats) →
        (∀ f ∈ feats, ∃ fkvs, f = Json.obj fkvs) →
        (∀ f ∈ feats, featureSelected f = true → (f.get "name").isSome = true) →
        read_features (.content (.obj kvs))
          = feats.filterMap fun f =>
              if featureSelected f then f.get "name" else none) := by
  refine ⟨rfl, rfl, fun msg => rfl, ?_⟩
  intro kvs feats hfeat hobj hname
  simp only [read_features, Json.getD, hfeat, Option.getD_some]
  rw [collectNames_eq feats hobj hname]
  rfl

/-- Witness for C9 at the file of the claim: `X` completed, `Y` todo,
via the general filter characterization. -/
theorem C9_witness :
    read_features (.content (.obj [("features", .arr [
        .obj [("name", .str "X"), ("status", .str "completed")],
        .obj [("name", .str "Y"), ("status", .str "todo")]])]))
      = [.str "X"] := by
  have h := (C9_read_features).2.2.2
    [("features", .arr [
        .obj [("name", .str "X"), ("status", .str "completed")],
        .obj [("name", .str "Y"), ("status", .str "todo")]])]
    [.obj [("name", .str "X"), ("status", .str "completed")],
     .obj [("name", .str "Y"), ("status", .str "todo")]]
    rfl
    (by
      intro f hf
      simp only [List.mem_cons, List.not_mem_nil, or_false] at hf
      rcases hf with rfl | rfl
      · exact ⟨_, rfl⟩
      · exact ⟨_, rfl⟩)
    (by
      intro f hf hsel
      simp only [List.mem_cons, List.not_mem_nil, or_false] at hf
      rcases hf with rfl | rfl <;> rfl)
  rw [h]
  rfl

/-! ### Claim C10 -/

/-- Claim C10, counterexample: in a fully successful auth run the login
step record is `⟨status⟩` only — it carries no `response` key, so not
every HTTP call of the flow yields a StepResult with both the status
code and the response payload. -/
theorem C10_counterexample_login_step_lacks_response :
    ((run_auth_test "qa@test.example.com" "pw"
        { regOutcome := .ok 200 (.json [])
        , loginOutcome := .ok 200 (.json [("token", .str "tok")])
        , verifyOutcome := .ok 200 (.json []) }).steps.lookup "login")
      = some (.obj [("status", .num 200)])
    ∧ (Json.obj [("status", .num 200)]).get "response" = none
    ∧ (Json.obj [("status", .num 200)]).get "status" = some (.num 200) := by
  refine ⟨rfl, rfl, rfl⟩

/-- Claim C10 (amended): every HTTP call of the auth flow that happens is
recorded as a step holding the status code of the call, but only the
register step also holds the response payload; the login and
verify-token steps record exactly the status. -/
theorem C10_amended_steps_record_status_only (email password : String) (env : AuthEnv) :
    ((run_auth_test email password env).steps.lookup "register"
        = some (.obj [("status", .num (http_post env.regOutcome).1),
                      ("response", (http_post env.regOutcome).2)]))
    ∧ ((run_auth_test email password env).steps.lookup "login" = none
        ∨ (run_auth_test email password env).steps.lookup "login"
            = some (.obj [("status", .num (http_post env.loginOutcome).1)]))
    ∧ ((run_auth_test email password env).steps.lookup "verify_token" = none
        ∨ (run_auth_test email password env).steps.lookup "verify_token"
            = some (.obj [("status", .num (http_get env.verifyOutcome).1)])) := by
  by_cases h1 : (http_post env.regOutcome).1 < 200 ∨ 300 ≤ (http_post env.regOutcome).1
  · simp only [run_auth_test, if_pos h1]
    exact ⟨rfl, Or.inl rfl, Or.inl rfl⟩
  · by_cases h2 : (http_post env.loginOutcome).1 < 200 ∨ 300 ≤ (http_post env.loginOutcome).1
    · simp only [run_auth_test, if_neg h1, if_pos h2]
      exact ⟨rfl, Or.inr rfl, Or.inl rfl⟩
    · by_cases h3 : (tokenOf (http_post env.loginOutcome).2).truthy = false
      · simp only [run_auth_test, if_neg h1, if_neg h2, if_pos h3]
        exact ⟨rfl, Or.inr rfl, Or.inl rfl⟩
      · simp only [run_auth_test, if_neg h1, if_neg h2, if_neg h3]
        exact ⟨rfl, Or.inr rfl, Or.inr rfl⟩

/-! ### Claim C1 -/

/-- The concrete run exhibiting the exit-code divergence: the step-0
connectivity probe fails every attempt (all transport errors), while
auth succeeds, a frontend is present and port publication succeeds. -/
def probeFailedEnv : MainEnv :=
  { now := "2026-01-01T00:00:00Z"
  , email := "qa-tester-1767225600@test.example.com"
  , password := "TestPass123!"
  , probeEnv := fun _ => .urlError "connection refused"
  , authEnv := { regOutcome := .ok 200 (.json [])
               , loginOutcome := .ok 200 (.json [("token", .str "tok")])
               , verifyOutcome := .ok 200 (.json []) }
  , frontendPresent := true
  , codespace := some "codespace-1", gh := .ok
  , featuresFile := .missing
  , agentOutcome := .urlError "never called" }

/-- Claim C1: on the run where the connectivity probe exhausts its
retries while auth succeeds, the frontend is present and ports succeed,
the browser stage is recorded as "error" and the invocation is skipped —
but the process completes normally with exit code 0, not the 2 the
claim (and the docstring of the script) prescribes: `exit_code` is
never reassigned on the skipped-invocation path. -/
theorem C1_probe_exhausted_exits_zero :
    (browserProbe probeFailedEnv.probeEnv).1 = false
    ∧ (run_auth_test probeFailedEnv.email probeFailedEnv.password
        probeFailedEnv.authEnv).success = true
    ∧ probeFailedEnv.frontendPresent = true
    ∧ (make_ports_public probeFailedEnv.codespace probeFailedEnv.gh).success = true
    ∧ ∃ r, mainRun probeFailedEnv = .completed r r 0
        ∧ r.exit_code = 0
        ∧ ∃ b, r.browser_smoke_test = some b
             ∧ b.get "overall" = some (.str "error") := by
  exact ⟨rfl, rfl, rfl, rfl, ⟨_, rfl, rfl, ⟨_, rfl, rfl⟩⟩⟩

/-! ### Claim C3 -/

theorem mergedSmoke_get_other (body : Json) (innerKvs : List (String × Json))
    (k : String) (h1 : k ≠ "service_reachable") (h2 : k ≠ "screenshotUrls") :
    (mergedSmoke body innerKvs).get k = (Json.obj innerKvs).get k := by
  unfold mergedSmoke
  by_cases hm : (body.hasKey "screenshotUrls"
      && !(Json.obj (setKey innerKvs "service_reachable" (.bool true))).hasKey
          "screenshotUrls") = true
  · simp only [hm, if_true]
    rw [lookup_setKey_other _ _ _ _ h2, lookup_setKey_other _ _ _ _ h1]
  · simp only [hm, if_false, Bool.false_eq_true]
    exact lookup_setKey_other _ _ _ _ h1

theorem mergedSmoke_is_obj (body : Json) (innerKvs : List (String × Json)) :
    ∃ kvs, mergedSmoke body innerKvs = Json.obj kvs := by
  unfold mergedSmoke
  by_cases hm : (body.hasKey "screenshotUrls"
      && !(Json.obj (setKey innerKvs "service_reachable" (.bool true))).hasKey
          "screenshotUrls") = true
  · exact ⟨setKey (setKey innerKvs "service_reachable" (.bool true)) "screenshotUrls"
      (body.getD "screenshotUrls" .null), by simp only [hm, if_true]⟩
  · exact ⟨setKey innerKvs "service_reachable" (.bool true),
      by simp only [hm, if_false, Bool.false_eq_true]⟩

theorem smokeMergeProps (body : Json) (innerKvs : List (String × Json)) :
    (mergedSmoke body innerKvs).get "service_reachable" = some (.bool true)
    ∧ (∀ k, k ≠ "service_reachable" → k ≠ "screenshotUrls" →
         (mergedSmoke body innerKvs).get k = (Json.obj innerKvs).get k)
    ∧ (mergedSmoke body innerKvs).get "screenshotUrls" =
        (if (Json.obj innerKvs).hasKey "screenshotUrls" = true
         then (Json.obj innerKvs).get "screenshotUrls"
         else body.get "screenshotUrls") := by
  have hne : "screenshotUrls" ≠ "service_reachable" := by decide
  have hinner : (Json.obj (setKey innerKvs "service_reachable" (.bool true))).get
      "screenshotUrls" = (Json.obj innerKvs).get "screenshotUrls" :=
    lookup_setKey_other _ _ _ _ hne
  refine ⟨?_, fun k hk1 hk2 => mergedSmoke_get_other body innerKvs k hk1 hk2, ?_⟩
  · unfold mergedSmoke
    by_cases hm : (body.hasKey "screenshotUrls"
        && !(Json.obj (setKey innerKvs "service_reachable" (.bool true))).hasKey
            "screenshotUrls") = true
    · simp only [hm, if_true]
      rw [lookup_setKey_other _ _ _ _ hne.symm]
      exact lookup_setKey_self _ _ _
    · simp only [hm, if_false, Bool.false_eq_true]
      exact lookup_setKey_self _ _ _
  · unfold mergedSmoke
    by_cases hm : (body.hasKey "screenshotUrls"
        && !(Json.obj (setKey innerKvs "service_reachable" (.bool true))).hasKey
            "screenshotUrls") = true
    · have hbk : body.hasKey "screenshotUrls" = true := by
        simpa using (Bool.and_eq_true_iff.mp hm).1
      have hsk : (Json.obj (setKey innerKvs "service_reachable" (.bool true))).hasKey
          "screenshotUrls" = false := by
        have := (Bool.and_eq_true_iff.mp hm).2
        simpa using this
      have hik : (Json.obj innerKvs).hasKey "screenshotUrls" = false := by
        simpa [Json.hasKey, hinner] using hsk
      simp only [hm, if_true]
      rw [lookup_setKey_self, hik]
      simp only [if_false, Bool.false_eq_true]
      obtain ⟨v, hv⟩ := Option.isSome_iff_exists.mp (by simpa [Json.hasKey] using hbk)
      simp [Json.getD, hv]
    · simp only [hm, if_false, Bool.false_eq_true]
      rw [hinner]
      by_cases hik : (Json.obj innerKvs).hasKey "screenshotUrls" = true
      · simp [hik]
      · have hik2 : (Json.obj innerKvs).hasKey "screenshotUrls" = false := by
          simpa using hik
        have hsk : (Json.obj (setKey innerKvs "service_reachable" (.bool true))).hasKey
            "screenshotUrls" = false := by
          simpa [Json.hasKey, hinner] using hik2
        have hbk : body.hasKey "screenshotUrls" = false := by
          by_cases hb : body.hasKey "screenshotUrls" = true
          · exfalso; exact hm (by simp [hb, hsk])
          · simpa using hb
        have e1 : (Json.obj innerKvs).get "screenshotUrls" = none := by
          simpa [Json.hasKey, Option.isSome_iff_exists] using hik2
        have e2 : body.get "screenshotUrls" = none := by
          simpa [Json.hasKey, Option.isSome_iff_exists] using hbk
        simp [hik2, e1, e2]


theorem mergedSmoke_getD_other (body : Json) (innerKvs : List (String × Json))
    (k : String) (d : Json) (h1 : k ≠ "service_reachable") (h2 : k ≠ "screenshotUrls") :
    (mergedSmoke body innerKvs).getD k d = (Json.obj innerKvs).getD k d := by
  unfold Json.getD
  rw [mergedSmoke_get_other _ _ _ h1 h2]

/-- The logging loops complete exactly when the result object satisfies
`smokeShapeOk` (the merged keys do not affect `tests` or
`critical_issues`). -/
theorem invokeResult_eq (body : Json) (innerKvs : List (String × Json)) :
    invokeResult body innerKvs
      = (if smokeShapeOk innerKvs = true
         then some (mergedSmoke body innerKvs) else none) := by
  have e1 := mergedSmoke_getD_other body innerKvs "tests" Json.null
    (by decide) (by decide)
  have e2 := mergedSmoke_getD_other body innerKvs "critical_issues" Json.null
    (by decide) (by decide)
  simp only [invokeResult]
  rw [e1, e2]
  cases hA : ((Json.obj innerKvs).getD "tests" Json.null).truthy <;>
  cases hB : testsLoopOk ((Json.obj innerKvs).getD "tests" Json.null) <;>
  cases hC : ((Json.obj innerKvs).getD "critical_issues" Json.null).truthy <;>
  cases hD : issuesLoopOk ((Json.obj innerKvs).getD "critical_issues" Json.null) <;>
  simp_all [smokeShapeOk]

/-- On a 2xx outcome whose result object satisfies `smokeShapeOk`, the
logging loops complete and the invoker returns the merged object. -/
theorem call_browser_agent_2xx (o : UrlOutcome) (innerKvs : List (String × Json))
    (h200 : 200 ≤ (http_post o).1) (h300 : (http_post o).1 < 300)
    (hinner : (http_post o).2.get "smokeTestResults" = some (.obj innerKvs)
              ∨ ((http_post o).2.get "smokeTestResults" = none
                  ∧ (http_post o).2 = .obj innerKvs))
    (hshape : smokeShapeOk innerKvs = true) :
    call_browser_agent o = some (mergedSmoke (http_post o).2 innerKvs) := by
  have hne : ¬ (http_post o).1 = 0 := by omega
  have hnr : ¬ ((http_post o).1 < 200 ∨ 300 ≤ (http_post o).1) := by omega
  simp only [call_browser_agent]
  rw [if_neg hne, if_neg hnr]
  rcases hinner with hget | ⟨hget, hbody⟩
  · simp only [Json.getD, hget, Option.getD_some]
    rw [invokeResult_eq, if_pos hshape]
  · simp only [Json.getD, hget, Option.getD_none]
    rw [hbody]
    show invokeResult (Json.obj innerKvs) innerKvs
      = some (mergedSmoke (Json.obj innerKvs) innerKvs)
    rw [invokeResult_eq, if_pos hshape]

/-- On a 2xx outcome whose result object violates `smokeShapeOk`, one of
the logging loops raises and the invoker produces no result. -/
theorem call_browser_agent_2xx_crash (o : UrlOutcome) (innerKvs : List (String × Json))
    (h200 : 200 ≤ (http_post o).1) (h300 : (http_post o).1 < 300)
    (hinner : (http_post o).2.get "smokeTestResults" = some (.obj innerKvs)
              ∨ ((http_post o).2.get "smokeTestResults" = none
                  ∧ (http_post o).2 = .obj innerKvs))
    (hshape : smokeShapeOk innerKvs = false) :
    call_browser_agent o = none := by
  have hne : ¬ (http_post o).1 = 0 := by omega
  have hnr : ¬ ((http_post o).1 < 200 ∨ 300 ≤ (http_post o).1) := by omega
  have hnotpos : ¬ smokeShapeOk innerKvs = true := by simp [hshape]
  simp only [call_browser_agent]
  rw [if_neg hne, if_neg hnr]
  rcases hinner with hget | ⟨hget, hbody⟩
  · simp only [Json.getD, hget, Option.getD_some]
    rw [invokeResult_eq, if_neg hnotpos]
  · simp only [Json.getD, hget, Option.getD_none]
    rw [hbody]
    show invokeResult (Json.obj innerKvs) innerKvs = none
    rw [invokeResult_eq, if_neg hnotpos]

/-- Claim C3, counterexample: a 2xx response whose body is a dict with a
truthy non-list `tests` value makes the result-logging loop
(`for t in smoke["tests"]`) raise `TypeError`, so the invoker yields no
result at all — refuting the claimed total case analysis, whose 2xx
case promises the (inner or top-level) object is returned. -/
theorem C3_counterexample_malformed_tests_crash :
    (http_post (.ok 200 (.json [("overall", .str "pass"), ("tests", .num 1)]))).1 = 200
    ∧ (http_post (.ok 200 (.json [("overall", .str "pass"),
        ("tests", .num 1)]))).2.get "smokeTestResults" = none
    ∧ call_browser_agent (.ok 200 (.json [("overall", .str "pass"), ("tests", .num 1)]))
        = none := by
  exact ⟨rfl, rfl, rfl⟩

/-- Claim C3 (amended): the invoker is a case analysis on the HTTP
outcome — transport failure (status 0) gives the skipped dict with
`service_reachable=false`; a non-2xx status gives the error dict with
the decoded detail and `service_reachable=true`; on 2xx the inner
`smokeTestResults` object (or the whole body when that wrapper is
absent), provided its `tests` and `critical_issues` fields are shaped so
the result-logging loops complete (`smokeShapeOk`), is returned with
`service_reachable` forced true and a top-level `screenshotUrls` merged
in exactly when the inner object lacks one; a 2xx result object
violating that shape makes the invoker raise uncaught, producing no
result. -/
theorem C3_call_browser_agent_case_analysis (o : UrlOutcome) :
    ((http_post o).1 = 0 →
      call_browser_agent o
        = some (.obj [("overall", .str "skipped"),
            ("reason", .str ("Browser agent unreachable: "
                              ++ pyStr ((http_post o).2.getD "error" .null))),
            ("service_reachable", .bool false)]))
    ∧ (0 < (http_post o).1 → ((http_post o).1 < 200 ∨ 300 ≤ (http_post o).1) →
      call_browser_agent o
        = some (.obj [("overall", .str "error"),
            ("error", .str ("Browser agent returned HTTP " ++ toString (http_post o).1)),
            ("detail", (http_post o).2),
            ("service_reachable", .bool true)]))
    ∧ (200 ≤ (http_post o).1 → (http_post o).1 < 300 →
      ∀ innerKvs : List (String × Json),
        ((http_post o).2.get "smokeTestResults" = some (.obj innerKvs)
          ∨ ((http_post o).2.get "smokeTestResults" = none
              ∧ (http_post o).2 = .obj innerKvs)) →
        (smokeShapeOk innerKvs = true →
          ∃ res, call_browser_agent o = some res
            ∧ res.get "service_reachable" = some (.bool true)
            ∧ (∀ k, k ≠ "service_reachable" → k ≠ "screenshotUrls" →
                 res.get k = (Json.obj innerKvs).get k)
            ∧ res.get "screenshotUrls" =
                (if (Json.obj innerKvs).hasKey "screenshotUrls" = true
                 then (Json.obj innerKvs).get "screenshotUrls"
                 else (http_post o).2.get "screenshotUrls"))
        ∧ (smokeShapeOk innerKvs = false → call_browser_agent o = none)) := by
  refine ⟨?_, ?_, ?_⟩
  · intro h0
    simp only [call_browser_agent, h0]
    simp
  · intro hpos hrange
    have hne : ¬ (http_post o).1 = 0 := by omega
    simp only [call_browser_agent]
    rw [if_neg hne, if_pos hrange]
  · intro h200 h300 innerKvs hcase
    constructor
    · intro hshape
      refine ⟨mergedSmoke (http_post o).2 innerKvs,
        call_browser_agent_2xx o innerKvs h200 h300 hcase hshape, ?_⟩
      exact smokeMergeProps (http_post o).2 innerKvs
    · intro hshape
      exact call_browser_agent_2xx_crash o innerKvs h200 h300 hcase hshape

/-- Witness for C3: a well-shaped 2xx response wrapping the results under
`smokeTestResults` with a top-level screenshot list is unwrapped, gets
`service_reachable=true`, keeps `overall`, and has the screenshot list
merged in. -/
theorem C3_witness :
    ∃ res, call_browser_agent
        (.ok 200 (.json [("smokeTestResults", .obj [("overall", .str "pass")]),
                         ("screenshotUrls", .arr [.str "https://shots/1.png"])]))
        = some res
      ∧ res.get "service_reachable" = some (.bool true)
      ∧ res.get "overall" = some (.str "pass")
      ∧ res.get "screenshotUrls" = some (.arr [.str "https://shots/1.png"]) := by
  have h := ((C3_call_browser_agent_case_analysis
      (.ok 200 (.json [("smokeTestResults", .obj [("overall", .str "pass")]),
                       ("screenshotUrls", .arr [.str "https://shots/1.png"])]))).2.2
    (by decide) (by decide)
    [("overall", .str "pass")]
    (Or.inl rfl)).1 rfl
  obtain ⟨res, hres, hsr, hkeep, hshot⟩ := h
  refine ⟨res, hres, hsr, ?_, ?_⟩
  · have := hkeep "overall" (by decide) (by decide)
    rw [this]; rfl
  · rw [hshot]; rfl

/-! ### Claim C8 -/

theorem overallOk_merged (body : Json) (innerKvs mkvs : List (String × Json))
    (hmk : mergedSmoke body innerKvs = Json.obj mkvs)
    (hov : overallOk innerKvs = true) : overallOk mkvs = true := by
  have hget2 : (Json.obj mkvs).get "overall" = (Json.obj innerKvs).get "overall" := by
    rw [← hmk]
    exact mergedSmoke_get_other _ _ _ (by decide) (by decide)
  unfold overallOk at hov ⊢
  rw [hget2]
  exact hov

/-- Under the documented agent contract the invoker completes and returns
an object whose `overall` value, when present, is a string. -/
theorem call_browser_agent_wf_obj (o : UrlOutcome) (h : agentReportWF o = true) :
    ∃ kvs, call_browser_agent o = some (.obj kvs) ∧ overallOk kvs = true := by
  by_cases h0 : (http_post o).1 = 0
  · refine ⟨[("overall", .str "skipped"),
      ("reason", .str ("Browser agent unreachable: "
                        ++ pyStr ((http_post o).2.getD "error" .null))),
      ("service_reachable", .bool false)], ?_, rfl⟩
    simp only [call_browser_agent, h0]
    simp
  · by_cases hr : (http_post o).1 < 200 ∨ 300 ≤ (http_post o).1
    · refine ⟨[("overall", .str "error"),
        ("error", .str ("Browser agent returned HTTP " ++ toString (http_post o).1)),
        ("detail", (http_post o).2),
        ("service_reachable", .bool true)], ?_, rfl⟩
      simp only [call_browser_agent]
      rw [if_neg h0, if_pos hr]
    · have h200 : 200 ≤ (http_post o).1 := by omega
      have h300 : (http_post o).1 < 300 := by omega
      have hwf := h
      simp only [agentReportWF] at hwf
      rw [if_pos ⟨h200, h300⟩] at hwf
      cases hget : (http_post o).2.get "smokeTestResults" with
      | some v =>
        rw [hget] at hwf
        cases v with
        | obj innerKvs =>
          have hsh : smokeShapeOk innerKvs = true := (Bool.and_eq_true_iff.mp hwf).1
          have hov : overallOk innerKvs = true := (Bool.and_eq_true_iff.mp hwf).2
          obtain ⟨mkvs, hmk⟩ := mergedSmoke_is_obj (http_post o).2 innerKvs
          refine ⟨mkvs, ?_, overallOk_merged _ _ _ hmk hov⟩
          rw [call_browser_agent_2xx o innerKvs h200 h300 (Or.inl hget) hsh, hmk]
        | null => simp at hwf
        | bool b => simp at hwf
        | num n => simp at hwf
        | str sv => simp at hwf
        | arr xs => simp at hwf
      | none =>
        rw [hget] at hwf
        cases hbody : (http_post o).2 with
        | obj kvs =>
          rw [hbody] at hwf
          have hsh : smokeShapeOk kvs = true := (Bool.and_eq_true_iff.mp hwf).1
          have hov : overallOk kvs = true := (Bool.and_eq_true_iff.mp hwf).2
          obtain ⟨mkvs, hmk⟩ := mergedSmoke_is_obj (http_post o).2 kvs
          refine ⟨mkvs, ?_, overallOk_merged _ _ _ hmk hov⟩
          rw [call_browser_agent_2xx o kvs h200 h300 (Or.inr ⟨hget, hbody⟩) hsh, hmk]
        | null => rw [hbody] at hwf; simp at hwf
        | bool b => rw [hbody] at hwf; simp at hwf
        | num n => rw [hbody] at hwf; simp at hwf
        | str sv => rw [hbody] at hwf; simp at hwf
        | arr xs => rw [hbody] at hwf; simp at hwf

/-- When the browser stage holds an object whose `overall` value (when
present) is a string, the summary logging survives `.upper()` and the
run completes: file written, the same report printed to stdout, exit
code returned. -/
theorem finishMain_completed (ts : String) (auth : AuthOutcome)
    (kvs : List (String × Json)) (ec : Nat) (h : overallOk kvs = true) :
    finishMain ts auth (some (.obj kvs)) ec
      = .completed ⟨ts, auth, some (.obj kvs), ec⟩ ⟨ts, auth, some (.obj kvs), ec⟩ ec := by
  unfold finishMain
  unfold overallOk at h
  cases hov : (Json.obj kvs).get "overall" with
  | none => simp [Json.getD, hov]
  | some v =>
    rw [hov] at h
    cases v with
    | str s => simp [Json.getD, hov]
    | null => simp at h
    | bool b => simp at h
    | num n => simp at h
    | arr xs => simp at h
    | obj okvs => simp at h

theorem mainRun_shape (env : MainEnv) (hwf : agentReportWF env.agentOutcome = true) :
    ∃ kvs ec, mainRun env
      = finishMain env.now (run_auth_test env.email env.password env.authEnv)
          (some (.obj kvs)) ec
      ∧ overallOk kvs = true := by
  by_cases hauth : (run_auth_test env.email env.password env.authEnv).success = false
  · refine ⟨[("overall", .str "error"),
      ("error", .str ("Auth failed: "
        ++ (match (run_auth_test env.email env.password env.authEnv).error with
            | some e => e | none => "None")
        ++ " -- no valid credentials for browser test"))], 1, ?_, rfl⟩
    simp only [mainRun, hauth]
    simp
  · have hauth2 : (run_auth_test env.email env.password env.authEnv).success = true := by
      simpa using hauth
    by_cases hfe : env.frontendPresent = false
    · refine ⟨[("overall", .str "not_applicable")], 0, ?_, rfl⟩
      simp only [mainRun, hauth2, hfe]
      simp
    · have hfe2 : env.frontendPresent = true := by simpa using hfe
      cases hports : make_ports_public env.codespace env.gh with
      | err msg =>
        refine ⟨[("overall", .str "error"), ("error", .str msg)], 2, ?_, rfl⟩
        simp only [mainRun, hauth2, hfe2, hports]
        simp
      | ok url =>
        by_cases hbr : (browserProbe env.probeEnv).1 = true
        · obtain ⟨kvs, hcall, hov⟩ := call_browser_agent_wf_obj env.agentOutcome hwf
          refine ⟨kvs, (match (Json.obj kvs).getD "overall" (.str "unknown") with
            | .str s => if s = "pass" then 0 else if s = "skipped" then 2 else 1
            | _ => 1), ?_, hov⟩
          simp only [mainRun, hauth2, hfe2, hports, hbr, hcall]
          simp
        · have hbr2 : (browserProbe env.probeEnv).1 = false := by simpa using hbr
          refine ⟨[("overall", .str "error"),
            ("reason", .str ("Browser agent unreachable after "
                              ++ toString WAKE_RETRIES ++ " attempts"))], 0, ?_, rfl⟩
          simp only [mainRun, hauth2, hfe2, hports, hbr2]
          simp

/-- The concrete run exhibiting the crash-after-write divergence: auth
succeeds, frontend present, ports succeed, the probe is reachable, and
the agent answers 2xx with `overall` a number. -/
def agentOverallNumEnv : MainEnv :=
  { now := "2026-01-01T00:00:00Z"
  , email := "qa-tester-1767225600@test.example.com"
  , password := "TestPass123!"
  , probeEnv := fun _ => .ok 200 (.json [])
  , authEnv := { regOutcome := .ok 200 (.json [])
               , loginOutcome := .ok 200 (.json [("token", .str "tok")])
               , verifyOutcome := .ok 200 (.json []) }
  , frontendPresent := true
  , codespace := some "codespace-1", gh := .ok
  , featuresFile := .missing
  , agentOutcome := .ok 200 (.json [("overall", .num 1)]) }

/-- Claim C8, counterexample: not every run produces a complete report
mirrored to stdout.  With a 2xx agent response `⟨overall, 1⟩` the run
writes the results file but then dies at the summary log line
(`overall_browser.upper()` raises `AttributeError` on a number) before
the stdout print; with a 2xx response whose `tests` value is a number,
the logging loop inside the invoker raises and the run dies before
anything is written at all. -/
theorem C8_counterexample_crash_paths :
    (∃ fw, mainRun agentOverallNumEnv = .wroteThenCrashed fw
        ∧ fw.exit_code = 1
        ∧ fw.browser_smoke_test
            = some (.obj [("overall", .num 1), ("service_reachable", .bool true)]))
    ∧ mainRun { agentOverallNumEnv with
        agentOutcome := .ok 200 (.json [("tests", .num 1)]) } = .crashedBeforeWrite := by
  exact ⟨⟨_, rfl, rfl, rfl⟩, rfl⟩

/-- Claim C8 (amended): on every run whose browser-agent response obeys
the documented contract (`agentReportWF`) — which covers all four
branches that never reach the invocation, since the predicate only
constrains 2xx responses — the orchestrator completes with a report
whose timestamp, auth, browser stage and exit code are all populated,
written to the fixed results file and emitted identically to stdout as
the final act.  Outside the contract the run crashes either before the
write or between the write and the stdout emit (see the
counterexample). -/
theorem C8_report_always_complete (env : MainEnv)
    (hwf : agentReportWF env.agentOutcome = true) :
    ∃ fw ec, mainRun env = .completed fw fw ec
      ∧ (∃ b, fw.browser_smoke_test = some b)
      ∧ fw.exit_code = ec
      ∧ fw.timestamp = env.now
      ∧ fw.auth = run_auth_test env.email env.password env.authEnv := by
  obtain ⟨kvs, ec, hm, hov⟩ := mainRun_shape env hwf
  rw [hm, finishMain_completed _ _ _ _ hov]
  exact ⟨_, _, rfl, ⟨_, rfl⟩, rfl, rfl, rfl⟩

/-- Witness for C8 on a concrete degraded run (no codespace, so ports
fail): the report is still complete and stdout mirrors the file. -/
theorem C8_witness :
    ∃ fw ec, mainRun
        { now := "2026-01-01T00:00:00Z", email := "qa@test.example.com", password := "pw"
        , probeEnv := fun _ => .ok 200 (.json [])
        , authEnv := { regOutcome := .ok 200 (.json [])
                     , loginOutcome := .ok 200 (.json [("token", .str "tok")])
                     , verifyOutcome := .ok 200 (.json []) }
        , frontendPresent := true
        , codespace := none, gh := .ok
        , featuresFile := .missing
        , agentOutcome := .ok 200 (.json [("overall", .str "pass")]) }
        = .completed fw fw ec
      ∧ (∃ b, fw.browser_smoke_test = some b)
      ∧ fw.exit_code = ec := by
  obtain ⟨fw, ec, h1, h2, h3, _⟩ := C8_report_always_complete
    { now := "2026-01-01T00:00:00Z", email := "qa@test.example.com", password := "pw"
    , probeEnv := fun _ => .ok 200 (.json [])
    , authEnv := { regOutcome := .ok 200 (.json [])
                 , loginOutcome := .ok 200 (.json [("token", .str "tok")])
                 , verifyOutcome := .ok 200 (.json []) }
    , frontendPresent := true
    , codespace := none, gh := .ok
    , featuresFile := .missing
    , agentOutcome := .ok 200 (.json [("overall", .str "pass")]) }
    (by decide)
  exact ⟨fw, ec, h1, h2, h3⟩
